import Mathlib

/-!
# Verification of the algokit-examples-explorer search core

Shallow embedding of the vector-search pipeline of the repository
`lempira/algokit-examples-explorer`: distance-to-similarity scoring,
the search orchestrator (`src/backend/src/services/search.ts`), the
query embedder (`embedQuery`), the database gate (`getTable` in
`src/backend/src/db/database.ts`), and the response-schema projection
(`SearchResultSchema`).  JavaScript numbers are modelled as exact
rationals (`ℚ`), integers as `ℤ`, and thrown errors as `Except`.
-/

namespace AlgokitExplorer

/-- JavaScript `Math.round`: rounds to the nearest integer, ties toward
positive infinity, i.e. `⌊x + 1/2⌋`. -/
def jsRound (x : ℚ) : ℤ := ⌊x + 1/2⌋

/-- JavaScript `String.prototype.trim()`: remove whitespace from both ends
of the string. -/
def jsTrim (s : String) : String :=
  ⟨((s.data.dropWhile Char.isWhitespace).reverse.dropWhile
      Char.isWhitespace).reverse⟩

namespace Backend

/-- Embeds `distanceToSimilarity` from `src/backend/src/services/search.ts`
(lines 151–156): `similarity = 100 - distance*50`, then
`Math.max(0, Math.min(100, Math.round(similarity*10)/10))`. -/
def distanceToSimilarity (distance : ℚ) : ℚ :=
  let similarity : ℚ := 100 - distance * 50
  max 0 (min 100 ((jsRound (similarity * 10) : ℚ) / 10))

end Backend

namespace Frontend

/-- Embeds `distanceToSimilarity` from `src/app/src/lib/search.ts`
(lines 91–96): `similarity = ((2 - distance)/2)*100`, then
`Math.max(0, Math.min(100, similarity))` with no rounding. -/
def distanceToSimilarity (distance : ℚ) : ℚ :=
  let similarity : ℚ := ((2 - distance) / 2) * 100
  max 0 (min 100 similarity)

end Frontend

/-- Rounding a rational to one decimal place (nearest multiple of 1/10,
ties toward +∞), as the spec's `round1`. -/
def round1 (x : ℚ) : ℚ := (jsRound (x * 10) : ℚ) / 10

/-- The spec's formula `clamp(0, 100, round1(100 − 50·d))`, written from the
spec's words for comparison with the code's `Backend.distanceToSimilarity`. -/
def specSimilarity (d : ℚ) : ℚ :=
  max 0 (min 100 (round1 (100 - 50 * d)))

/-- The `AlgoKitExample` record (`src/backend/src/db/models.ts`). -/
structure AlgoKitExample where
  example_id : String
  repository : String
  title : String
  summary : String
  complexity : String
  language : String
  feature_tags : List String
  features_to_demonstrate : List String
  target_users : List String
  folder_name : Option String
  source_code : Option String
  vector : List ℚ
deriving DecidableEq

/-- A row returned by the LanceDB vector search (`table.search(v).limit(k)
.toArray()`): the stored record's columns plus the `_distance` column. -/
structure StoredResult where
  record : AlgoKitExample
  _distance : ℚ
deriving DecidableEq

/-- The examples table (`examplesTable` in `src/backend/src/db/database.ts`):
the loaded corpus rows, with the external LanceDB nearest-neighbor search
primitive abstracted as a function from query vector and row limit to rows. -/
structure Table where
  corpus : List AlgoKitExample
  search : List ℚ → ℤ → List StoredResult

/-- The backend's module-level mutable state: the embedder handle
(`embedder !== null` plus the loaded model, `src` embedder service) and the
database table (`examplesTable`, `none` before `initializeDatabase` runs). -/
structure Env where
  embedderReady : Bool
  model : String → List ℚ
  table : Option Table

/-- Errors thrown by `embedQuery` (backend embedder service):
`notReady` = "Embedder not initialized", `emptyText` = "Query cannot be
empty", `dimensionMismatch got` = the dimension check thrown inside the
try block and re-wrapped as "Embedding generation failed: Expected
384-dimensional vector, got N". -/
inductive EmbedError where
  | notReady : EmbedError
  | emptyText : EmbedError
  | dimensionMismatch : Nat → EmbedError
deriving DecidableEq

/-- Embeds `embedQuery` from the backend embedder service: checks the
embedder handle, then that the query is non-empty after trimming, runs the
model, and rejects an output whose length is not 384. -/
def embedQuery (ready : Bool) (model : String → List ℚ) (query : String) :
    Except EmbedError (List ℚ) :=
  if !ready then .error .notReady
  else if (jsTrim query).isEmpty then .error .emptyText
  else
    let embedding := model query
    if embedding.length ≠ 384 then .error (.dimensionMismatch embedding.length)
    else .ok embedding

/-- The downstream failure wrapped by `searchExamples`'s catch block:
a failed `embedQuery` call, or `getTable()` throwing "Database not
initialized". -/
inductive SearchFailure where
  | embedFailed : EmbedError → SearchFailure
  | notInitialized : SearchFailure
deriving DecidableEq

/-- Errors thrown by `searchExamples`: "Search query cannot be empty",
"Search query too long (max 500 characters)", and the catch-block wrapper
"Search query failed: ...". -/
inductive SearchError where
  | emptyQuery : SearchError
  | queryTooLong : SearchError
  | searchFailed : SearchFailure → SearchError
deriving DecidableEq

/-- The two validation errors are the spec's `InvalidQuery`; the wrapped
downstream failure is the spec's `SearchFailed`. -/
def SearchError.isInvalidQuery : SearchError → Bool
  | .emptyQuery => true
  | .queryTooLong => true
  | .searchFailed _ => false

/-- A formatted search result (`{...result, similarity:
distanceToSimilarity(result._distance)}` in `searchExamples`). -/
structure FormattedResult where
  record : AlgoKitExample
  _distance : ℚ
  similarity : ℚ
deriving DecidableEq

/-- The map body of `searchExamples` step 4: spread the stored row and add
the derived `similarity` field. -/
def formatResult (r : StoredResult) : FormattedResult :=
  ⟨r.record, r._distance, Backend.distanceToSimilarity r._distance⟩

/-- The `SearchResponse` assembled by `searchExamples` (the wall-clock
`processingTimeMs` field is real time and is not modelled). -/
structure SearchResponse where
  results : List FormattedResult
  query : String
  count : Nat
deriving DecidableEq

/-- External calls `searchExamples` makes, in order: one embedder call and
one store search carrying the row limit that was requested. -/
inductive Effect where
  | embedCall : String → Effect
  | storeSearch : List ℚ → ℤ → Effect
deriving DecidableEq

/-- `Math.max(1, Math.min(50, limit))` from `searchExamples`. -/
def clampLimit (limit : ℤ) : ℤ := max 1 (min 50 limit)

/-- The default of the `limit` parameter of `searchExamples`. -/
def defaultLimit : ℤ := 10

/-- Embeds `searchExamples` (`src/backend/src/services/search.ts`): validate
the query, clamp the limit, embed the query, fetch the table, search, and
format; thrown downstream errors are wrapped as `searchFailed`.  The second
component records the external calls performed. -/
def searchExamples (env : Env) (query : String) (limit : ℤ) :
    Except SearchError SearchResponse × List Effect :=
  if (jsTrim query).isEmpty then (.error .emptyQuery, [])
  else if 500 < query.length then (.error .queryTooLong, [])
  else
    let clampedLimit := clampLimit limit
    match embedQuery env.embedderReady env.model query with
    | .error e => (.error (.searchFailed (.embedFailed e)), [.embedCall query])
    | .ok queryVector =>
      match env.table with
      | none => (.error (.searchFailed .notInitialized), [.embedCall query])
      | some table =>
        let results := table.search queryVector clampedLimit
        let formattedResults := results.map formatResult
        (.ok ⟨formattedResults, jsTrim query, formattedResults.length⟩,
          [.embedCall query, .storeSearch queryVector clampedLimit])

/-- Errors thrown by `getExampleById`: "Example ID cannot be empty" and the
catch-block wrapper "Failed to retrieve example: ..." around `getTable()`
throwing before initialization. -/
inductive LookupError where
  | emptyId : LookupError
  | lookupFailed : LookupError
deriving DecidableEq

/-- Embeds `getExampleById`: validate the identifier, fetch the table, and
return the first row whose `example_id` column equals the identifier, or
`none` when no row matches.  The LanceDB filter string
`example_id = 'id'` is modelled as exact string equality on opaque
identifiers. -/
def getExampleById (table : Option Table) (exampleId : String) :
    Except LookupError (Option AlgoKitExample) :=
  if (jsTrim exampleId).isEmpty then .error .emptyId
  else
    match table with
    | none => .error .lookupFailed
    | some t =>
      match (t.corpus.filter (fun r => r.example_id == exampleId)).head? with
      | none => .ok none
      | some r => .ok (some r)

/-- An Example record without its `vector` field, listing exactly the
non-derived fields of the external `SearchResultSchema`. -/
structure ExampleNoVector where
  example_id : String
  repository : String
  title : String
  summary : String
  complexity : String
  language : String
  feature_tags : List String
  features_to_demonstrate : List String
  target_users : List String
  folder_name : Option String
  source_code : Option String
deriving DecidableEq

/-- Forget the `vector` field of a record, keeping every other field. -/
def dropVector (e : AlgoKitExample) : ExampleNoVector :=
  ⟨e.example_id, e.repository, e.title, e.summary, e.complexity, e.language,
    e.feature_tags, e.features_to_demonstrate, e.target_users,
    e.folder_name, e.source_code⟩

/-- A search result as serialized externally: the fields of
`SearchResultSchema` (backend schemas file) — every Example field except
`vector`, plus `similarity` and `_distance`. -/
structure ExternalResult where
  record : ExampleNoVector
  similarity : ℚ
  _distance : ℚ
deriving DecidableEq

/-- Fastify serializes `POST /api/search` responses through
`SearchResultSchema`, which omits `vector`: serialization projects a
formatted result onto the schema's fields. -/
def serializeResult (f : FormattedResult) : ExternalResult :=
  ⟨dropVector f.record, f.similarity, f._distance⟩

/-- The `_distance` column sequence of a formatted result list. -/
def distances (rs : List FormattedResult) : List ℚ :=
  rs.map fun r => r._distance

/-- A formatted result list is in non-decreasing `_distance` order. -/
def sortedByDistance (rs : List FormattedResult) : Prop :=
  List.Chain' (· ≤ ·) (distances rs)

/-- A concrete corpus record used to evaluate the theorems on closed input. -/
def sampleExample : AlgoKitExample :=
  ⟨"algokit-hello", "algokit-examples", "Hello World", "A first contract",
    "simple", "typescript", [], [], [], none, none, []⟩

/-- A concrete one-record table whose search returns no rows. -/
def sampleTable : Table := ⟨[sampleExample], fun _ _ => []⟩

/-- A concrete fully initialized environment with a constant model. -/
def sampleEnv : Env :=
  ⟨true, fun _ => List.replicate 384 0, some sampleTable⟩

end AlgokitExplorer

namespace AlgokitExplorer

/-- `jsRound` is within 1/2 of its argument. -/
theorem abs_jsRound_sub_le (x : ℚ) : |(jsRound x : ℚ) - x| ≤ 1/2 := by
  unfold jsRound
  rw [abs_le]
  constructor
  · have h := Int.lt_floor_add_one (x + 1/2)
    push_cast at h ⊢
    linarith
  · have h := Int.floor_le (x + 1/2)
    push_cast at h ⊢
    linarith

/-- `jsRound` is monotone. -/
theorem jsRound_mono {x y : ℚ} (h : x ≤ y) : jsRound x ≤ jsRound y := by
  unfold jsRound
  exact Int.floor_le_floor (by linarith)

/-- The clamp `max 0 (min 100 ·)` is 1-Lipschitz. -/
theorem clamp_lipschitz (a b : ℚ) :
    |max 0 (min 100 a) - max 0 (min 100 b)| ≤ |a - b| := by
  have h := abs_min_sub_min_le_max (100 : ℚ) a 100 b
  rw [sub_self, abs_zero] at h
  calc |max 0 (min 100 a) - max 0 (min 100 b)|
      = |max (min 100 a) 0 - max (min 100 b) 0| := by rw [max_comm 0, max_comm 0]
    _ ≤ |min 100 a - min 100 b| := abs_max_sub_max_le_abs _ _ _
    _ ≤ |a - b| := h.trans (max_le (abs_nonneg _) le_rfl)

/-- C1: the backend `distanceToSimilarity` coincides with the spec formula
`clamp(0, 100, round1(100 − 50·d))` at every rational distance, and takes
the values 100, 50, 0, 0 at distances 0, 1, 2, 3 (clamped, never negative). -/
theorem backend_similarity_matches_spec_formula :
    (∀ d : ℚ, Backend.distanceToSimilarity d = specSimilarity d) ∧
    Backend.distanceToSimilarity 0 = 100 ∧
    Backend.distanceToSimilarity 1 = 50 ∧
    Backend.distanceToSimilarity 2 = 0 ∧
    Backend.distanceToSimilarity 3 = 0 := by
  refine ⟨fun d => ?_, ?_, ?_, ?_, ?_⟩
  · unfold Backend.distanceToSimilarity specSimilarity round1
    ring_nf
  · unfold Backend.distanceToSimilarity jsRound
    norm_num
  · unfold Backend.distanceToSimilarity jsRound
    norm_num
  · unfold Backend.distanceToSimilarity jsRound
    norm_num
  · unfold Backend.distanceToSimilarity jsRound
    norm_num

/-- The backend similarity is never negative (shared helper). -/
theorem distanceToSimilarity_nonneg (d : ℚ) : 0 ≤ Backend.distanceToSimilarity d := by
  unfold Backend.distanceToSimilarity
  exact le_max_left _ _

/-- The backend similarity is at most 100 (shared helper). -/
theorem distanceToSimilarity_le_hundred (d : ℚ) : Backend.distanceToSimilarity d ≤ 100 := by
  unfold Backend.distanceToSimilarity
  exact max_le (by norm_num) (min_le_left _ _)

/-- C2: the backend `distanceToSimilarity` always lies in `[0, 100]` and is
monotonically non-increasing in the distance. -/
theorem backend_similarity_bounds_and_antitone :
    (∀ d : ℚ, 0 ≤ Backend.distanceToSimilarity d ∧
      Backend.distanceToSimilarity d ≤ 100) ∧
    ∀ d1 d2 : ℚ, d1 ≤ d2 →
      Backend.distanceToSimilarity d2 ≤ Backend.distanceToSimilarity d1 := by
  constructor
  · intro d
    exact ⟨distanceToSimilarity_nonneg d, distanceToSimilarity_le_hundred d⟩
  · intro d1 d2 h
    unfold Backend.distanceToSimilarity
    have hr : jsRound ((100 - d2 * 50) * 10) ≤ jsRound ((100 - d1 * 50) * 10) :=
      jsRound_mono (by nlinarith)
    have : ((jsRound ((100 - d2 * 50) * 10) : ℚ)) / 10 ≤
        ((jsRound ((100 - d1 * 50) * 10) : ℚ)) / 10 := by
      have hc : ((jsRound ((100 - d2 * 50) * 10) : ℤ) : ℚ) ≤
          ((jsRound ((100 - d1 * 50) * 10) : ℤ) : ℚ) := by exact_mod_cast hr
      linarith
    exact max_le_max le_rfl (min_le_min le_rfl this)

/-- Witness for C2's monotonicity hypothesis at a concrete pair of distances. -/
theorem backend_similarity_bounds_and_antitone_witness :
    Backend.distanceToSimilarity 2 ≤ Backend.distanceToSimilarity (1/2) :=
  backend_similarity_bounds_and_antitone.2 (1/2) 2 (by norm_num)

/-- C10 counterexample: at distance `3/1000` the backend implementation
returns `99.9` (rounded to one decimal) while the frontend returns `99.85`,
so the two `distanceToSimilarity` implementations are not the same function. -/
theorem backend_frontend_similarity_differ :
    Backend.distanceToSimilarity (3/1000) ≠ Frontend.distanceToSimilarity (3/1000) := by
  unfold Backend.distanceToSimilarity Frontend.distanceToSimilarity jsRound
  norm_num

/-- C10 amended: the two implementations agree up to one-decimal rounding:
they differ by at most `1/20` (0.05) at every distance, and agree exactly
whenever `500·d` is an integer (in particular at `d = 0, 1, 2, 3`). -/
theorem backend_frontend_similarity_agree_up_to_rounding :
    (∀ d : ℚ, |Backend.distanceToSimilarity d - Frontend.distanceToSimilarity d| ≤ 1/20) ∧
    ∀ d : ℚ, (∃ n : ℤ, 500 * d = n) →
      Backend.distanceToSimilarity d = Frontend.distanceToSimilarity d := by
  have hfront : ∀ d : ℚ, Frontend.distanceToSimilarity d =
      max 0 (min 100 (100 - d * 50)) := by
    intro d
    unfold Frontend.distanceToSimilarity
    ring_nf
  constructor
  · intro d
    rw [hfront]
    unfold Backend.distanceToSimilarity
    calc |max 0 (min 100 ((jsRound ((100 - d * 50) * 10) : ℚ) / 10)) -
          max 0 (min 100 (100 - d * 50))|
        ≤ |(jsRound ((100 - d * 50) * 10) : ℚ) / 10 - (100 - d * 50)| :=
          clamp_lipschitz _ _
      _ ≤ 1/20 := by
          have h := abs_jsRound_sub_le ((100 - d * 50) * 10)
          rw [abs_le] at h ⊢
          constructor <;> linarith
  · rintro d ⟨n, hn⟩
    rw [hfront]
    unfold Backend.distanceToSimilarity
    have harg : (100 - d * 50) * 10 = ((1000 - n : ℤ) : ℚ) := by
      push_cast
      linarith
    have hround : jsRound ((100 - d * 50) * 10) = 1000 - n := by
      rw [harg]
      unfold jsRound
      rw [Int.floor_int_add]
      norm_num
    have hval : ((jsRound ((100 - d * 50) * 10) : ℤ) : ℚ) / 10 = 100 - d * 50 := by
      rw [hround]
      push_cast
      linarith
    show max 0 (min 100 ((jsRound ((100 - d * 50) * 10) : ℚ) / 10)) =
      max 0 (min 100 (100 - d * 50))
    rw [hval]

/-- Witness for the amended C10 at distance `1`: both implementations give 50. -/
theorem backend_frontend_similarity_agree_up_to_rounding_witness :
    Backend.distanceToSimilarity 1 = Frontend.distanceToSimilarity 1 :=
  backend_frontend_similarity_agree_up_to_rounding.2 1 ⟨500, by norm_num⟩

/-- C3: `searchExamples` fails with an `InvalidQuery`-class error exactly when
the query is empty after trimming or longer than 500 characters (so a
500-character query passes validation), and on such a failure it performs no
external call: no embedding and no store search. -/
theorem search_invalid_query_iff_and_before_work (env : Env) (query : String)
    (limit : ℤ) :
    ((∃ e, (searchExamples env query limit).1 = .error e ∧
        e.isInvalidQuery = true) ↔
      ((jsTrim query).isEmpty = true ∨ 500 < query.length)) ∧
    (((jsTrim query).isEmpty = true ∨ 500 < query.length) →
      (searchExamples env query limit).2 = []) := by
  unfold searchExamples
  by_cases h1 : (jsTrim query).isEmpty
  · simp [h1, SearchError.isInvalidQuery]
  · by_cases h2 : 500 < query.length
    · simp [h1, h2, SearchError.isInvalidQuery]
    · rcases hE : embedQuery env.embedderReady env.model query with e | vec
      · simp [h1, h2, hE, SearchError.isInvalidQuery]
      · cases hT : env.table with
        | none => simp [h1, h2, hE, hT, SearchError.isInvalidQuery]
        | some t => simp [h1, h2, hE, hT, SearchError.isInvalidQuery]

/-- Witness for C3: the empty query fails validation with no external call. -/
theorem search_invalid_query_iff_and_before_work_witness :
    (searchExamples ⟨false, fun _ => [], none⟩ "" 7).2 = [] :=
  (search_invalid_query_iff_and_before_work ⟨false, fun _ => [], none⟩ "" 7).2
    (Or.inl (by decide))

/-- C4: the limit is clamped to `[1, 50]` and never rejected — `0` clamps to
`1`, `1000` clamps to `50`, the default is `10` and survives clamping — the
row count requested from the store is exactly the clamped limit, and whether
`searchExamples` fails (and with which error) does not depend on the limit. -/
theorem search_limit_clamped_never_rejected (env : Env) (query : String)
    (limit : ℤ) :
    (1 ≤ clampLimit limit ∧ clampLimit limit ≤ 50) ∧
    clampLimit 0 = 1 ∧
    clampLimit 1000 = 50 ∧
    clampLimit defaultLimit = 10 ∧
    (∀ v k, Effect.storeSearch v k ∈ (searchExamples env query limit).2 →
      k = clampLimit limit) ∧
    (∀ (limit' : ℤ) (e : SearchError),
      (searchExamples env query limit).1 = .error e ↔
        (searchExamples env query limit').1 = .error e) := by
  refine ⟨⟨?_, ?_⟩, by decide, by decide, by decide, ?_, ?_⟩
  · unfold clampLimit
    omega
  · unfold clampLimit
    omega
  · intro v k hk
    unfold searchExamples at hk
    by_cases h1 : (jsTrim query).isEmpty
    · simp [h1] at hk
    · by_cases h2 : 500 < query.length
      · simp [h1, h2] at hk
      · rcases hE : embedQuery env.embedderReady env.model query with e | vec
        · simp [h1, h2, hE] at hk
        · cases hT : env.table with
          | none => simp [h1, h2, hE, hT] at hk
          | some t =>
            simp [h1, h2, hE, hT] at hk
            exact hk.2
  · intro limit' e
    unfold searchExamples
    by_cases h1 : (jsTrim query).isEmpty
    · simp [h1]
    · by_cases h2 : 500 < query.length
      · simp [h1, h2]
      · rcases hE : embedQuery env.embedderReady env.model query with er | vec
        · simp [h1, h2, hE]
        · cases hT : env.table with
          | none => simp [h1, h2, hE, hT]
          | some t => simp [h1, h2, hE, hT]

set_option maxRecDepth 4000 in
/-- Witness for C4: in a run that reaches the store, the requested row count
is the clamped limit (`limit = 0` clamps to `1`). -/
theorem search_limit_clamped_never_rejected_witness :
    (1 : ℤ) = clampLimit 0 :=
  (search_limit_clamped_never_rejected
      ⟨true, fun _ => List.replicate 384 0, some ⟨[], fun _ _ => []⟩⟩ "hi"
      0).2.2.2.2.1 (List.replicate 384 0) 1 (by decide)

/-- C5: on a valid query against an initialized environment whose store
returns rows in non-decreasing distance order and within its row budget,
`searchExamples` succeeds with exactly the store's rows in the store's order
(only formatted), a `count` equal to the result length and at most both the
clamped limit and the corpus size, and the trimmed query echoed back. -/
theorem search_response_order_count_query (env : Env) (query : String)
    (limit : ℤ) (t : Table)
    (htable : env.table = some t)
    (hready : env.embedderReady = true)
    (hdim : (env.model query).length = 384)
    (hq1 : (jsTrim query).isEmpty = false)
    (hq2 : query.length ≤ 500)
    (hsorted : ∀ v k,
      List.Chain' (· ≤ ·) ((t.search v k).map fun r => r._distance))
    (hlen : ∀ v k, 0 ≤ k → (t.search v k).length ≤ k.toNat ∧
      (t.search v k).length ≤ t.corpus.length) :
    ∃ resp, (searchExamples env query limit).1 = .ok resp ∧
      resp.results =
        (t.search (env.model query) (clampLimit limit)).map formatResult ∧
      sortedByDistance resp.results ∧
      resp.count = resp.results.length ∧
      resp.count ≤ (clampLimit limit).toNat ∧
      resp.count ≤ t.corpus.length ∧
      resp.query = jsTrim query := by
  have hE : embedQuery env.embedderReady env.model query =
      .ok (env.model query) := by
    unfold embedQuery
    rw [hready]
    simp [hq1, hdim]
  have hq2' : ¬ (500 < query.length) := by omega
  have hrun : (searchExamples env query limit).1 =
      .ok ⟨(t.search (env.model query) (clampLimit limit)).map formatResult,
        jsTrim query,
        ((t.search (env.model query) (clampLimit limit)).map
          formatResult).length⟩ := by
    unfold searchExamples
    simp [hq1, hq2', hE, htable]
  have h0 : (0 : ℤ) ≤ clampLimit limit := by unfold clampLimit; omega
  refine ⟨_, hrun, rfl, ?_, rfl, ?_, ?_, rfl⟩
  · unfold sortedByDistance distances
    have hmm : (((t.search (env.model query) (clampLimit limit)).map
        formatResult).map fun r => r._distance) =
        (t.search (env.model query) (clampLimit limit)).map
          fun r => r._distance := by
      simp [formatResult]
    rw [hmm]
    exact hsorted _ _
  · have := (hlen (env.model query) (clampLimit limit) h0).1
    simpa using this
  · have := (hlen (env.model query) (clampLimit limit) h0).2
    simpa using this

set_option maxRecDepth 4000 in
/-- Witness for C5: a concrete valid query against the sample environment. -/
theorem search_response_order_count_query_witness :
    ∃ resp, (searchExamples sampleEnv "hello world" 3).1 = .ok resp ∧
      resp.results =
        (sampleTable.search (sampleEnv.model "hello world")
          (clampLimit 3)).map formatResult ∧
      sortedByDistance resp.results ∧
      resp.count = resp.results.length ∧
      resp.count ≤ (clampLimit 3).toNat ∧
      resp.count ≤ sampleTable.corpus.length ∧
      resp.query = jsTrim "hello world" :=
  search_response_order_count_query sampleEnv "hello world" 3 sampleTable rfl
    rfl (by decide) (by decide) (by decide)
    (fun v k => by simp [sampleTable])
    (fun v k hk => by simp [sampleTable])

/-- C6: every externally serialized search result is the matched record with
the `vector` field dropped (by the response schema) and every other field
unchanged, plus the row's `_distance` (non-negative when the store's distance
is) and a derived `similarity` in `[0, 100]`. -/
theorem search_result_shape (r : StoredResult) (hd : 0 ≤ r._distance) :
    serializeResult (formatResult r) =
      ⟨dropVector r.record, Backend.distanceToSimilarity r._distance,
        r._distance⟩ ∧
    0 ≤ (serializeResult (formatResult r))._distance ∧
    0 ≤ (serializeResult (formatResult r)).similarity ∧
    (serializeResult (formatResult r)).similarity ≤ 100 :=
  ⟨rfl, hd, distanceToSimilarity_nonneg _, distanceToSimilarity_le_hundred _⟩

/-- Witness for C6 at a concrete row with distance 1. -/
theorem search_result_shape_witness :
    serializeResult (formatResult ⟨sampleExample, 1⟩) =
      ⟨dropVector sampleExample, Backend.distanceToSimilarity 1, 1⟩ ∧
    0 ≤ (serializeResult (formatResult ⟨sampleExample, 1⟩))._distance ∧
    0 ≤ (serializeResult (formatResult ⟨sampleExample, 1⟩)).similarity ∧
    (serializeResult (formatResult ⟨sampleExample, 1⟩)).similarity ≤ 100 :=
  search_result_shape ⟨sampleExample, 1⟩ (by norm_num)

/-- C7: looking up an identifier that is non-empty after trimming but absent
from the corpus returns the not-found signal (`none`) and no error, and
`getExampleById` fails with the empty-identifier error exactly when the
identifier is empty or whitespace-only. -/
theorem getById_missing_not_found (t : Table) (exampleId : String)
    (hid : (jsTrim exampleId).isEmpty = false)
    (habsent : ∀ r ∈ t.corpus, r.example_id ≠ exampleId) :
    getExampleById (some t) exampleId = .ok none ∧
    ∀ (table : Option Table) (i : String),
      (getExampleById table i = .error .emptyId ↔
        (jsTrim i).isEmpty = true) := by
  constructor
  · unfold getExampleById
    have hf : t.corpus.filter (fun r => r.example_id == exampleId) = [] := by
      rw [List.filter_eq_nil_iff]
      intro r hr
      simpa using habsent r hr
    simp [hid, hf]
  · intro table i
    unfold getExampleById
    by_cases h : (jsTrim i).isEmpty
    · simp [h]
    · cases table with
      | none => simp [h]
      | some t' =>
        rcases hh : (t'.corpus.filter (fun r => r.example_id == i)).head? with
          _ | r
        · simp [h, hh]
        · simp [h, hh]

/-- Witness for C7: an identifier absent from the sample corpus. -/
theorem getById_missing_not_found_witness :
    getExampleById (some sampleTable) "no-such-id" = .ok none ∧
    ∀ (table : Option Table) (i : String),
      (getExampleById table i = .error .emptyId ↔
        (jsTrim i).isEmpty = true) :=
  getById_missing_not_found sampleTable "no-such-id" (by decide) (by decide)

/-- C8: a valid query (or any query) before the database table is
initialized never yields a result set — `searchExamples` fails, and on a
valid query with a working embedder it fails precisely with the wrapped
not-initialized error; identifier lookup likewise fails with the wrapped
not-initialized error. -/
theorem not_initialized_errors :
    (∀ (env : Env) (query : String) (limit : ℤ),
      env.table = none → env.embedderReady = true →
      (jsTrim query).isEmpty = false → query.length ≤ 500 →
      (env.model query).length = 384 →
      (searchExamples env query limit).1 =
        .error (.searchFailed .notInitialized)) ∧
    (∀ (env : Env) (query : String) (limit : ℤ) (resp : SearchResponse),
      env.table = none → (searchExamples env query limit).1 ≠ .ok resp) ∧
    (∀ exampleId : String, (jsTrim exampleId).isEmpty = false →
      getExampleById none exampleId = .error .lookupFailed) := by
  refine ⟨?_, ?_, ?_⟩
  · intro env query limit hT hready hq1 hq2 hdim
    have hE : embedQuery env.embedderReady env.model query =
        .ok (env.model query) := by
      unfold embedQuery
      rw [hready]
      simp [hq1, hdim]
    have hq2' : ¬ (500 < query.length) := by omega
    unfold searchExamples
    simp [hq1, hq2', hE, hT]
  · intro env query limit resp hT
    unfold searchExamples
    by_cases h1 : (jsTrim query).isEmpty
    · simp [h1]
    · by_cases h2 : 500 < query.length
      · simp [h1, h2]
      · rcases hE : embedQuery env.embedderReady env.model query with e | vec
        · simp [h1, h2, hE]
        · simp [h1, h2, hE, hT]
  · intro exampleId hid
    unfold getExampleById
    simp [hid]

set_option maxRecDepth 4000 in
/-- Witness for C8: a valid query and a valid identifier against the
uninitialized table. -/
theorem not_initialized_errors_witness :
    (searchExamples ⟨true, fun _ => List.replicate 384 0, none⟩ "hi" 5).1 =
      .error (.searchFailed .notInitialized) ∧
    getExampleById none "hi" = .error .lookupFailed :=
  ⟨not_initialized_errors.1 ⟨true, fun _ => List.replicate 384 0, none⟩ "hi" 5
      rfl rfl (by decide) (by decide) (by decide),
    not_initialized_errors.2.2 "hi" (by decide)⟩

/-- C9: `embedQuery` fails with the not-ready error before initialization,
with the invalid-input error on a query that is empty after trimming, with
the (wrapped) dimension-mismatch error when the model's output length is not
384, and otherwise returns exactly the model's 384-component vector. -/
theorem embedQuery_contract (ready : Bool) (model : String → List ℚ)
    (query : String) :
    (ready = false → embedQuery ready model query = .error .notReady) ∧
    (ready = true → (jsTrim query).isEmpty = true →
      embedQuery ready model query = .error .emptyText) ∧
    (ready = true → (jsTrim query).isEmpty = false →
      (model query).length ≠ 384 →
      embedQuery ready model query =
        .error (.dimensionMismatch (model query).length)) ∧
    (ready = true → (jsTrim query).isEmpty = false →
      (model query).length = 384 →
      embedQuery ready model query = .ok (model query)) := by
  refine ⟨?_, ?_, ?_, ?_⟩
  · intro h1
    unfold embedQuery
    simp [h1]
  · intro h1 h2
    unfold embedQuery
    simp [h1, h2]
  · intro h1 h2 h3
    unfold embedQuery
    simp [h1, h2, h3]
  · intro h1 h2 h3
    unfold embedQuery
    simp [h1, h2, h3]

set_option maxRecDepth 4000 in
/-- Witness for C9: a ready embedder on a non-empty query with a
384-component model output. -/
theorem embedQuery_contract_witness :
    embedQuery true (fun _ => List.replicate 384 0) "hi" =
      .ok (List.replicate 384 0) :=
  (embedQuery_contract true (fun _ => List.replicate 384 0) "hi").2.2.2 rfl
    (by decide) (by decide)

end AlgokitExplorer
